import Mathlib

/-!
Shallow embedding of `src/validator.js` (webbower/validator): an immutable
validation-chain utility.  JavaScript values are modelled by `JSVal`,
caller-supplied predicates by `JSPred` (which may throw an arbitrary JS
value, modelled with `Except`), and the closure state of `ValidatorFactory`
by `ValidatorState`.  Bound validators (`createBoundValidator`) are modelled
by the inductive `BoundValidator`.
-/

/-- Model of the JavaScript values this library manipulates: `null`,
`undefined`, booleans, numbers (integer fragment), strings and arrays. -/
inductive JSVal where
  | null
  | undef
  | bool (b : Bool)
  | num (n : Int)
  | str (s : String)
  | arr (elems : List JSVal)

/-- JavaScript truthiness of a value (`v ? _ : _`): `null`/`undefined` are
falsy, a boolean is itself, a number is truthy iff nonzero, a string is
truthy iff nonempty, an array object is always truthy. -/
def JSVal.truthy : JSVal → Bool
  | .null => false
  | .undef => false
  | .bool b => b
  | .num n => decide (n ≠ 0)
  | .str s => decide (s ≠ "")
  | .arr _ => true

/-- Model of the loose nil check `x == null`, true exactly for `null` and
`undefined`. -/
def JSVal.isNil : JSVal → Bool
  | .null => true
  | .undef => true
  | _ => false

/-- Model of the `typeof` operator on the modelled (non-function) values;
note `typeof null` is `"object"` in JavaScript, as is `typeof` of an array. -/
def JSVal.typeofStr : JSVal → String
  | .null => "object"
  | .undef => "undefined"
  | .bool _ => "boolean"
  | .num _ => "number"
  | .str _ => "string"
  | .arr _ => "object"

/-- A caller-supplied unary JavaScript function on the wrapped value: it
either returns a value (`Except.ok`) or throws one (`Except.error`).
The library uses such functions both as predicates and as `assertWhen`
condition functions. -/
def JSPred : Type := JSVal → Except JSVal JSVal

/-- Model of the JavaScript object returned by `new ValidationError(message,
originalError)` (src/validator.js:24-30): the properties reachable on it are
its `name`, its `message`, and its `originalError` property (where the value
`JSVal.undef` models an absent property, since property access on a missing
key yields `undefined`). -/
structure ErrObj where
  name : String
  message : String
  originalError : JSVal

set_option linter.unusedVariables false in
/-- Faithful model of `new ValidationError(message, originalError)`
(src/validator.js:24-30).  The constructor body builds
`var instance = new Error(message)` — a fresh object whose own `message`
property is `message` — re-points `instance`'s prototype at
`ValidationError.prototype` (whose `name` property is `"ValidationError"`),
and then assigns `this.name` and `this.originalError` on `this`.  Because the
function ends with `return instance`, the object `this` (the only object on
which `originalError` was ever set) is discarded, and the value produced by
`new ValidationError(...)` is `instance`: its `message` is the failure
message, its `name` resolves to `"ValidationError"` through the prototype,
and its `originalError` property is absent, so reading it yields
`undefined`.  The `originalError` argument is therefore dropped. -/
def ValidationError.new (message : String) (originalError : JSVal) : ErrObj :=
  -- `this.originalError = originalError` mutates the discarded `this`,
  -- so `originalError` does not appear on the returned `instance`.
  { name := "ValidationError", message := message, originalError := JSVal.undef }

/-- An entry of the accumulated `errs` list: either the plain failure
message string appended by `errs.concat(errorMsg)`, or the
`ValidationError` object appended when the predicate threw. -/
inductive Failure where
  | plain (msg : String)
  | wrapped (e : ErrObj)

/-- Model of `isError` (lodash.iserror) on an `errs` entry: a plain string
is not an `Error`, a `ValidationError` object is. -/
def Failure.isJsError : Failure → Bool
  | .plain _ => false
  | .wrapped _ => true

/-- JavaScript property access `failure.message` on an `errs` entry: for a
`ValidationError` it is the object's `message` property; a string primitive
has no `message` property, hence `undefined` — but `getFailures` only reads
`.message` on entries that passed `isError`, so we expose the string itself
for the plain case where it is never consulted. -/
def Failure.message : Failure → String
  | .plain s => s
  | .wrapped e => e.message

/-- JavaScript property access `failure.originalError` on an `errs` entry:
`undefined` for a plain string, the object's property for a
`ValidationError`. -/
def Failure.originalError : Failure → JSVal
  | .plain _ => JSVal.undef
  | .wrapped e => e.originalError

/-- The closure state of `ValidatorFactory(x, errs, options)`
(src/validator.js:52-108): the wrapped value `x`, the accumulated entries
`errs`, and the destructured `optional` flag (defaulting to `false` when
`options` is omitted). -/
structure ValidatorState where
  value : JSVal
  errs : List Failure
  optional : Bool

/-- The public constructor `Validator = x => ValidatorFactory(x)`
(src/validator.js:111): empty failures, not optional. -/
def Validator (x : JSVal) : ValidatorState :=
  { value := x, errs := [], optional := false }

/-- The optional constructor `Validator.Optional = x =>
ValidatorFactory(x, undefined, { optional: true })` (src/validator.js:137-139). -/
def Validator.Optional (x : JSVal) : ValidatorState :=
  { value := x, errs := [], optional := true }

/-- Model of `assert(test, errorMsg)` (src/validator.js:57-67).  When the
validator is optional and the value is nil it returns `self()` — the same
state.  Otherwise it evaluates `test(x)`: a truthy result returns `self()`;
a falsy result returns `ValidatorFactory(x, errs.concat(errorMsg))`; a
thrown value `e` returns
`ValidatorFactory(x, errs.concat(new ValidationError(errorMsg, e)))`.
Note that both extending calls omit the `options` argument, so the
`optional` flag of the extended validator defaults back to `false`. -/
def ValidatorState.assert (st : ValidatorState) (test : JSPred) (errorMsg : String) :
    ValidatorState :=
  if st.optional && st.value.isNil then st
  else
    match test st.value with
    | .ok r =>
      if r.truthy then st
      else { value := st.value, errs := st.errs ++ [.plain errorMsg], optional := false }
    | .error e =>
      { value := st.value
        errs := st.errs ++ [.wrapped (ValidationError.new errorMsg e)]
        optional := false }

/-- The polymorphic first argument of `assertWhen`: either a plain
JavaScript value (whose `typeof` dispatches the `boolean`/default switch
arms) or a unary function. -/
inductive Condition where
  | val (c : JSVal)
  | fn (f : JSPred)

/-- Outcomes by which `assertWhen` (or a bound-validator invocation) can
throw to its caller rather than return a validator: the `TypeError` built
for an invalid condition argument, or a value thrown by a condition
function, propagated uncaught. -/
inductive AssertWhenErr where
  | typeError (msg : String)
  | condThrown (e : JSVal)

/-- Model of `assertWhen(condition, test, errorMsg)` (src/validator.js:68-84).
The `switch (typeof condition)` evaluates a function condition on the
wrapped value (outside any try/catch, so a throw propagates), takes a
boolean as-is, and otherwise throws a `TypeError`.  A truthy `passed`
delegates to `this.assert`, a falsy one returns `self()` — the same state. -/
def ValidatorState.assertWhen (st : ValidatorState) (condition : Condition) (test : JSPred)
    (errorMsg : String) : Except AssertWhenErr ValidatorState :=
  match condition with
  | .fn f =>
    match f st.value with
    | .error e => .error (.condThrown e)
    | .ok passed => .ok (if passed.truthy then st.assert test errorMsg else st)
  | .val (.bool b) => .ok (if b then st.assert test errorMsg else st)
  | .val c =>
    .error (.typeError
      ("Validator.assertWhen() expects first argument to be boolean or function. "
        ++ c.typeofStr ++ " given."))

/-- Model of `hasFailures()` (src/validator.js:85-87): `errs.length > 0`. -/
def ValidatorState.hasFailures (st : ValidatorState) : Bool :=
  decide (st.errs.length > 0)

/-- Model of `hasErrors()` (src/validator.js:88-90):
`errs.filter(isError).length > 0`. -/
def ValidatorState.hasErrors (st : ValidatorState) : Bool :=
  decide ((st.errs.filter Failure.isJsError).length > 0)

/-- Model of `getFailuresAndErrors()` (src/validator.js:91-93): a copy of
`errs`. -/
def ValidatorState.getFailuresAndErrors (st : ValidatorState) : List Failure :=
  st.errs

/-- Model of `getFailures()` (src/validator.js:94-96):
`errs.map(failure => isError(failure) ? failure.message : failure)`. -/
def ValidatorState.getFailures (st : ValidatorState) : List String :=
  st.errs.map fun failure => if failure.isJsError then failure.message
    else match failure with | .plain s => s | .wrapped e => e.message

/-- Model of `getErrors()` (src/validator.js:97-99): `errs.filter(isError)`. -/
def ValidatorState.getErrors (st : ValidatorState) : List Failure :=
  st.errs.filter Failure.isJsError

/-- JavaScript truthiness of the stored `boundCondition` as tested by
`if (boundCondition)` in `createBoundValidator` (src/validator.js:117): a
function object is always truthy; any other value is coerced by its value
truthiness. -/
def Condition.jsTruthy : Condition → Bool
  | .fn _ => true
  | .val c => c.truthy

/-- Model of the closures built by `createBoundValidator`
(src/validator.js:113-134).  Every bound validator holds one bound
assertion `[test, msg]` with an optional `cond` (present exactly when it
was created through `withAssertWhen`), and a `baseValidator`: `root` when
the base is the plain `Validator` constructor (the default, used by the
static `Validator.withAssert`/`Validator.withAssertWhen`), `layer` when the
base is another bound validator (instance-level `withAssert`/
`withAssertWhen`). -/
inductive BoundValidator where
  | root (test : JSPred) (msg : String) (cond : Option Condition)
  | layer (base : BoundValidator) (test : JSPred) (msg : String) (cond : Option Condition)

/-- The body of the closure `BoundValidator = x => ...`
(src/validator.js:116-122) applied to the already-computed
`baseValidator(x)`: `if (boundCondition)` — a truthiness test, with an
absent condition (`undefined`) falsy — dispatches between
`.assertWhen(boundCondition, boundTest, boundFailureMessage)` and
`.assert(boundTest, boundFailureMessage)`. -/
def applyBoundAssertion (v : ValidatorState) (test : JSPred) (msg : String)
    (cond : Option Condition) : Except AssertWhenErr ValidatorState :=
  match cond with
  | some c => if c.jsTruthy then v.assertWhen c test msg else .ok (v.assert test msg)
  | none => .ok (v.assert test msg)

/-- Invoking a bound validator on a value `x` (src/validator.js:116-122):
compute `baseValidator(x)` — recursively, bottoming out at the plain
`Validator` constructor — then apply the bound assertion; an exception
thrown anywhere (invalid condition type, or a throwing condition function)
propagates to the caller. -/
def BoundValidator.invoke : BoundValidator → JSVal → Except AssertWhenErr ValidatorState
  | .root test msg cond, x => applyBoundAssertion (Validator x) test msg cond
  | .layer base test msg cond, x =>
    match base.invoke x with
    | .error e => .error e
    | .ok v => applyBoundAssertion v test msg cond

/-- Static `Validator.withAssert(test, errorMsg)` (src/validator.js:143-145):
a bound validator over the plain constructor with an unconditional bound
assertion. -/
def Validator.withAssert (test : JSPred) (errorMsg : String) : BoundValidator :=
  .root test errorMsg none

/-- Static `Validator.withAssertWhen(condition, test, errorMsg)`
(src/validator.js:146-148): a bound validator over the plain constructor
whose bound assertion carries the condition. -/
def Validator.withAssertWhen (condition : Condition) (test : JSPred) (errorMsg : String) :
    BoundValidator :=
  .root test errorMsg (some condition)

/-- Instance-level `withAssert(test, errorMsg)` on a bound validator
(src/validator.js:125-127): a new bound validator whose base is the current
one; the current one is not modified. -/
def BoundValidator.withAssert (bv : BoundValidator) (test : JSPred) (errorMsg : String) :
    BoundValidator :=
  .layer bv test errorMsg none

/-- Instance-level `withAssertWhen(condition, test, errorMsg)` on a bound
validator (src/validator.js:128-130). -/
def BoundValidator.withAssertWhen (bv : BoundValidator) (condition : Condition) (test : JSPred)
    (errorMsg : String) : BoundValidator :=
  .layer bv test errorMsg (some condition)

/-- One step of a validation chain: an `.assert` call or an `.assertWhen`
call, with its caller-supplied arguments. -/
inductive ChainOp where
  | assertOp (p : JSPred) (m : String)
  | assertWhenOp (c : Condition) (p : JSPred) (m : String)

/-- Running a whole chain of `.assert`/`.assertWhen` calls left to right
from a starting validator; an exception thrown by `assertWhen` aborts the
chain and propagates. -/
def runChain : ValidatorState → List ChainOp → Except AssertWhenErr ValidatorState
  | st, [] => .ok st
  | st, .assertOp p m :: rest => runChain (st.assert p m) rest
  | st, .assertWhenOp c p m :: rest =>
    match st.assertWhen c p m with
    | .error e => .error e
    | .ok st' => runChain st' rest

/-- Sample predicate `isString = x => typeof x === 'string'` from the
repository's test suite (test/validator.test.js), used as a concrete
caller-supplied predicate in witnesses. -/
def isStringP : JSPred :=
  fun x => .ok (.bool (x.typeofStr == "string"))

/-- Sample predicate modelling the test suite's `isEmailFormat` on the
modelled string fragment: a string containing an `@`; non-strings make it
throw a `TypeError`-like value, mirroring predicates that call string
methods on non-strings (the README's `.assert(isEmailFormat, ...)` example
notes exactly that such a call throws on a number). -/
def isEmailFormatP : JSPred :=
  fun x =>
    match x with
    | .str s => .ok (.bool (s.data.any (fun c => c == '@')))
    | other => .error (.str ("TypeError: not a string: " ++ other.typeofStr))

/-- Sample non-throwing email-format predicate (a total variant used where a
witness needs an ordinary boolean-returning predicate): true exactly on
strings containing an `@`. -/
def isEmailFormatTotalP : JSPred :=
  fun x =>
    match x with
    | .str s => .ok (.bool (s.data.any (fun c => c == '@')))
    | _ => .ok (.bool false)

/-- Modelled from the spec: the display message of a failures entry — "the
plain message if it is a plain failure, or the WrappedError's `message`
field if it is a WrappedError".  Stated separately from the source-derived
`getFailures` so the two can be compared. -/
def failureDisplayMessage : Failure → String
  | .plain s => s
  | .wrapped e => e.message

/-! Helper lemmas shared by the claim theorems. -/

lemma assert_of_optional_nil (st : ValidatorState) (p : JSPred) (m : String)
    (h1 : st.optional = true) (h2 : st.value.isNil = true) : st.assert p m = st := by
  simp [ValidatorState.assert, h1, h2]

lemma assertWhen_ok_of_optional_nil (st : ValidatorState) (c : Condition) (p : JSPred)
    (m : String) (st' : ValidatorState) (h1 : st.optional = true) (h2 : st.value.isNil = true)
    (h : st.assertWhen c p m = .ok st') : st' = st := by
  cases c with
  | fn f =>
    simp only [ValidatorState.assertWhen] at h
    cases hf : f st.value with
    | error e => rw [hf] at h; cases h
    | ok passed =>
      rw [hf] at h
      cases h
      by_cases ht : passed.truthy
      · simp [ht, assert_of_optional_nil st p m h1 h2]
      · simp [ht]
  | val c =>
    cases c with
    | bool b =>
      simp only [ValidatorState.assertWhen] at h
      cases h
      cases b
      · simp
      · simp [assert_of_optional_nil st p m h1 h2]
    | null => cases h
    | undef => cases h
    | num n => cases h
    | str s => cases h
    | arr elems => cases h

lemma runChain_ok_of_optional_nil (st : ValidatorState)
    (h1 : st.optional = true) (h2 : st.value.isNil = true) :
    ∀ (ops : List ChainOp) (st' : ValidatorState), runChain st ops = .ok st' → st' = st := by
  intro ops
  induction ops with
  | nil => intro st' h; cases h; rfl
  | cons op rest ih =>
    intro st' h
    cases op with
    | assertOp p m =>
      rw [runChain, assert_of_optional_nil st p m h1 h2] at h
      exact ih st' h
    | assertWhenOp c p m =>
      rw [runChain] at h
      cases hw : st.assertWhen c p m with
      | error e => rw [hw] at h; cases h
      | ok st'' =>
        rw [hw] at h
        have : st'' = st := assertWhen_ok_of_optional_nil st c p m st'' h1 h2 hw
        rw [this] at h
        exact ih st' h

/-- C1: evaluation at the failing input.  For `v = 1`, a predicate that
throws the value `"boom"`, and failure message `"msg"`, the chain
`Validator(v).assert(p, "msg")` does yield `hasErrors() = true`,
`getFailures() = ["msg"]`, and a single recorded `ValidationError` entry
whose `message` is `"msg"` — but `getErrors()[0].originalError` is
`undefined`, not the thrown value `"boom"`: the constructor assigns
`originalError` to a `this` object that it then discards by returning
`instance`, so the thrown value is not preserved on the recorded entry. -/
theorem c1_originalError_not_preserved :
    ((Validator (JSVal.num 1)).assert (fun _ => .error (JSVal.str "boom")) "msg").hasErrors = true
    ∧ ((Validator (JSVal.num 1)).assert (fun _ => .error (JSVal.str "boom")) "msg").getFailures
        = ["msg"]
    ∧ ((Validator (JSVal.num 1)).assert (fun _ => .error (JSVal.str "boom")) "msg").getErrors.map
        Failure.message = ["msg"]
    ∧ ((Validator (JSVal.num 1)).assert (fun _ => .error (JSVal.str "boom")) "msg").getErrors.map
        Failure.originalError = [JSVal.undef]
    ∧ JSVal.undef ≠ JSVal.str "boom" := by
  refine ⟨rfl, rfl, rfl, rfl, ?_⟩
  intro h
  cases h

/-- C2: evaluation at the failing input.  The bound validator
`Validator.withAssertWhen(false, isString, "must be a string")` applied to
`1` records the failure `"must be a string"`: the dispatch
`if (boundCondition)` in `createBoundValidator` is a truthiness test, so the
bound condition `false` routes the invocation to the unconditional
`.assert` branch instead of `.assertWhen(false, ...)` — whereas a direct
`assertWhen(false, ...)` call (second conjunct) skips the assertion and
records nothing. -/
theorem c2_bound_false_condition_not_skipped :
    (Validator.withAssertWhen (.val (.bool false)) isStringP "must be a string").invoke
        (JSVal.num 1)
      = .ok { value := JSVal.num 1, errs := [.plain "must be a string"], optional := false }
    ∧ (Validator (JSVal.num 1)).assertWhen (.val (.bool false)) isStringP "must be a string"
      = .ok (Validator (JSVal.num 1)) :=
  ⟨rfl, rfl⟩

/-- C3 counterexample: a single failing `assert` on `Validator.Optional(1)`
reaches a validator whose `optional` flag is `false`, refuting "every
validator reachable by any chain of assert/assertWhen calls from
Validator.Optional(v) is itself still optional": the extending calls
`ValidatorFactory(x, errs.concat(...))` omit the `options` argument, so the
flag resets to its default `false`. -/
theorem c3_counterexample_optional_flag_dropped :
    ((Validator.Optional (JSVal.num 1)).assert (fun _ => .ok (.bool false)) "m").optional
      = false := rfl

/-- C3 amended: (1) when the wrapped value is nil, every chain of
`assert`/`assertWhen` calls from `Validator.Optional(v)` that returns
normally returns the starting state itself — every assertion is skipped, no
failure is recorded, and the validator is still optional; (2) an assertion
whose predicate passes preserves the state (hence the flag) unchanged; but
(3) an assertion that records a failure, and (4) one that records a thrown
error, on a non-nil value return a validator whose `optional` flag is reset
to `false` (observationally equivalent to preserving it, since the wrapped
value is fixed and non-nil). -/
theorem c3_optional_semantics :
    (∀ (v : JSVal) (ops : List ChainOp) (st' : ValidatorState), v.isNil = true →
      runChain (Validator.Optional v) ops = .ok st' → st' = Validator.Optional v)
    ∧ (∀ (st : ValidatorState) (p : JSPred) (m : String) (r : JSVal),
        p st.value = .ok r → r.truthy = true → st.assert p m = st)
    ∧ (∀ (st : ValidatorState) (p : JSPred) (m : String) (r : JSVal),
        st.value.isNil = false → p st.value = .ok r → r.truthy = false →
        (st.assert p m).optional = false)
    ∧ (∀ (st : ValidatorState) (p : JSPred) (m : String) (e : JSVal),
        st.value.isNil = false → p st.value = .error e →
        (st.assert p m).optional = false) := by
  refine ⟨?_, ?_, ?_, ?_⟩
  · intro v ops st' hnil h
    exact runChain_ok_of_optional_nil (Validator.Optional v) rfl hnil ops st' h
  · intro st p m r hp hr
    unfold ValidatorState.assert
    split
    · rfl
    · rw [hp]
      simp [hr]
  · intro st p m r hnil hp hr
    unfold ValidatorState.assert
    rw [hnil, hp]
    simp [hr]
  · intro st p m e hnil hp
    unfold ValidatorState.assert
    rw [hnil, hp]
    simp

/-- C3 witness: concrete applications of each part of
`c3_optional_semantics` — a two-step chain on `Validator.Optional(null)`
returns it unchanged; a passing assert on `Validator(1)` leaves it
unchanged; a failing assert and a throwing assert on `Validator.Optional(1)`
yield `optional = false`. -/
theorem c3_optional_semantics_witness :
    ({ value := JSVal.null, errs := [], optional := true } : ValidatorState)
      = Validator.Optional JSVal.null
    ∧ (Validator (JSVal.num 1)).assert (fun _ => .ok (.bool true)) "m" = Validator (JSVal.num 1)
    ∧ ((Validator.Optional (JSVal.num 1)).assert isStringP "m").optional = false
    ∧ ((Validator.Optional (JSVal.num 1)).assert isEmailFormatP "m").optional = false :=
  ⟨c3_optional_semantics.1 JSVal.null
      [ChainOp.assertOp isStringP "s", ChainOp.assertWhenOp (.val (.bool true)) isStringP "t"]
      _ rfl rfl,
    c3_optional_semantics.2.1 (Validator (JSVal.num 1)) (fun _ => .ok (.bool true)) "m"
      (JSVal.bool true) rfl rfl,
    c3_optional_semantics.2.2.1 (Validator.Optional (JSVal.num 1)) isStringP "m"
      (JSVal.bool false) rfl rfl rfl,
    c3_optional_semantics.2.2.2 (Validator.Optional (JSVal.num 1)) isEmailFormatP "m"
      (JSVal.str "TypeError: not a string: number") rfl rfl⟩

/-- C4: the three-way case analysis of `assert` on a non-optional validator
(or an optional one with a non-nil value): a truthy predicate result leaves
the validator unchanged; a falsy result appends the plain message; a throw
appends a `ValidationError` entry — but that entry carries only the message:
its `originalError` property is `undefined` whatever the caught exception
`e` was, because the `ValidationError` constructor assigns `originalError`
on a discarded `this`, so the claim's "carrying ... the caught exception"
fails.  The wrapped value is unchanged in all cases. -/
theorem c4_assert_case_analysis (st : ValidatorState) (p : JSPred) (m : String)
    (hno : st.optional = false ∨ st.value.isNil = false) :
    (∀ r : JSVal, p st.value = .ok r → r.truthy = true → st.assert p m = st)
    ∧ (∀ r : JSVal, p st.value = .ok r → r.truthy = false →
        st.assert p m
          = { value := st.value, errs := st.errs ++ [.plain m], optional := false })
    ∧ (∀ e : JSVal, p st.value = .error e →
        st.assert p m
          = { value := st.value
              errs := st.errs ++
                [.wrapped { name := "ValidationError", message := m,
                            originalError := JSVal.undef }]
              optional := false }) := by
  have hcond : (st.optional && st.value.isNil) = false := by
    cases hno with
    | inl h => rw [h]; rfl
    | inr h => rw [h]; simp
  refine ⟨?_, ?_, ?_⟩
  · intro r hp hr
    unfold ValidatorState.assert
    rw [hcond, hp]
    simp [hr]
  · intro r hp hr
    unfold ValidatorState.assert
    rw [hcond, hp]
    simp [hr]
  · intro e hp
    unfold ValidatorState.assert
    rw [hcond, hp]
    rfl

/-- C4 witness: on `Validator(2)` (non-optional), the throwing predicate
`isEmailFormat` records exactly one `ValidationError` entry whose
`originalError` is `undefined` rather than the thrown `TypeError` value, and
leaves the wrapped value unchanged. -/
theorem c4_assert_case_analysis_witness :
    (Validator (JSVal.num 2)).assert isEmailFormatP "a valid email is required"
      = { value := JSVal.num 2
          errs := [.wrapped { name := "ValidationError", message := "a valid email is required",
                              originalError := JSVal.undef }]
          optional := false } :=
  (c4_assert_case_analysis (Validator (JSVal.num 2)) isEmailFormatP
      "a valid email is required" (Or.inl rfl)).2.2
    (JSVal.str "TypeError: not a string: number") rfl

/-- C5: a predicate that throws never propagates out of `assert` — in the
model `assert` is a total function into `ValidatorState`, translating the
`try`/`catch` that surrounds the only predicate call — and the throw is
recorded as a single typed entry that `isError` distinguishes from a plain
failure while `getFailures()` still renders the supplied message `m`. -/
theorem c5_predicate_exception_captured (v : JSVal) (p : JSPred) (m : String) (e : JSVal)
    (h : p v = .error e) :
    ((Validator v).assert p m).getFailuresAndErrors.map Failure.isJsError = [true]
    ∧ ((Validator v).assert p m).getFailures = [m]
    ∧ ((Validator v).assert p m).hasErrors = true
    ∧ ((Validator v).assert p m).hasFailures = true := by
  have : (Validator v).assert p m
      = { value := v
          errs := [.wrapped { name := "ValidationError", message := m,
                              originalError := JSVal.undef }]
          optional := false } := by
    unfold ValidatorState.assert
    have hcond : ((Validator v).optional && (Validator v).value.isNil) = false := rfl
    have h' : p (Validator v).value = .error e := h
    rw [hcond, h']
    rfl
  rw [this]
  exact ⟨rfl, rfl, rfl, rfl⟩

/-- C5 witness: concrete instance with `v = 1`, the throwing predicate
`isEmailFormat` and message `"a valid email is required"`. -/
theorem c5_predicate_exception_captured_witness :
    ((Validator (JSVal.num 1)).assert isEmailFormatP
        "a valid email is required").getFailuresAndErrors.map Failure.isJsError = [true]
    ∧ ((Validator (JSVal.num 1)).assert isEmailFormatP
        "a valid email is required").getFailures = ["a valid email is required"]
    ∧ ((Validator (JSVal.num 1)).assert isEmailFormatP
        "a valid email is required").hasErrors = true
    ∧ ((Validator (JSVal.num 1)).assert isEmailFormatP
        "a valid email is required").hasFailures = true :=
  c5_predicate_exception_captured (JSVal.num 1) isEmailFormatP "a valid email is required"
    (JSVal.str "TypeError: not a string: number") rfl

/-- C6: `assertWhen` with a condition that is neither a boolean nor a
function throws the `TypeError` built from `typeof condition` synchronously
to its caller (the `Except.error` channel, distinct from any `.ok` result),
so no validator is produced and nothing is appended to any failures list —
in particular the error is a `typeError`, not a recorded `WrappedError`. -/
theorem c6_assertWhen_invalid_condition (st : ValidatorState) (c : JSVal) (p : JSPred)
    (m : String) (h : ∀ b : Bool, c ≠ JSVal.bool b) :
    st.assertWhen (.val c) p m
      = .error (.typeError
          ("Validator.assertWhen() expects first argument to be boolean or function. "
            ++ c.typeofStr ++ " given.")) := by
  cases c with
  | bool b => exact absurd rfl (h b)
  | null => rfl
  | undef => rfl
  | num n => rfl
  | str s => rfl
  | arr elems => rfl

/-- C6 witness: the condition `1` (a number) yields the `TypeError` naming
`number`; the conjuncts also spell out a `null`, a string and an array
condition, matching the claim's example list. -/
theorem c6_assertWhen_invalid_condition_witness :
    (Validator (JSVal.num 5)).assertWhen (.val (JSVal.num 1)) isStringP "m"
      = .error (.typeError
          ("Validator.assertWhen() expects first argument to be boolean or function. "
            ++ "number" ++ " given."))
    ∧ (Validator (JSVal.num 5)).assertWhen (.val JSVal.null) isStringP "m"
      = .error (.typeError
          ("Validator.assertWhen() expects first argument to be boolean or function. "
            ++ "object" ++ " given."))
    ∧ (Validator (JSVal.num 5)).assertWhen (.val (JSVal.str "foo")) isStringP "m"
      = .error (.typeError
          ("Validator.assertWhen() expects first argument to be boolean or function. "
            ++ "string" ++ " given."))
    ∧ (Validator (JSVal.num 5)).assertWhen (.val (JSVal.arr [])) isStringP "m"
      = .error (.typeError
          ("Validator.assertWhen() expects first argument to be boolean or function. "
            ++ "object" ++ " given.")) :=
  ⟨c6_assertWhen_invalid_condition (Validator (JSVal.num 5)) (JSVal.num 1) isStringP "m"
      (fun b hb => by cases hb),
    c6_assertWhen_invalid_condition (Validator (JSVal.num 5)) JSVal.null isStringP "m"
      (fun b hb => by cases hb),
    c6_assertWhen_invalid_condition (Validator (JSVal.num 5)) (JSVal.str "foo") isStringP "m"
      (fun b hb => by cases hb),
    c6_assertWhen_invalid_condition (Validator (JSVal.num 5)) (JSVal.arr []) isStringP "m"
      (fun b hb => by cases hb)⟩

/-- C7: `assertWhen(true, p, m)` equals `assert(p, m)`; `assertWhen(false,
p, m)` returns the validator unchanged with no failure recorded, for any
`p`; and for a condition function that returns a boolean `b` on the wrapped
value, `assertWhen(fn, p, m)` applies `assert(p, m)` exactly when `b` is
`true` and otherwise returns the validator unchanged. -/
theorem c7_assertWhen_dispatch (st : ValidatorState) (p : JSPred) (m : String) :
    st.assertWhen (.val (.bool true)) p m = .ok (st.assert p m)
    ∧ st.assertWhen (.val (.bool false)) p m = .ok st
    ∧ ∀ (f : JSPred) (b : Bool), f st.value = .ok (JSVal.bool b) →
        st.assertWhen (.fn f) p m = .ok (if b then st.assert p m else st) := by
  refine ⟨rfl, rfl, ?_⟩
  intro f b hf
  simp only [ValidatorState.assertWhen]
  rw [hf]
  cases b <;> rfl

/-- C7 witness: on `Validator("foo")` with predicate `isString` — a
condition function returning `true` applies the assertion, one returning
`false` leaves the validator unchanged, and the boolean literals behave as
`assert` / no-op respectively. -/
theorem c7_assertWhen_dispatch_witness :
    (Validator (JSVal.str "foo")).assertWhen (.val (.bool true)) isStringP "m"
      = .ok ((Validator (JSVal.str "foo")).assert isStringP "m")
    ∧ (Validator (JSVal.str "foo")).assertWhen (.val (.bool false)) isStringP "m"
      = .ok (Validator (JSVal.str "foo"))
    ∧ (Validator (JSVal.str "foo")).assertWhen (.fn (fun _ => .ok (.bool true))) isStringP "m"
      = .ok (if true then (Validator (JSVal.str "foo")).assert isStringP "m"
          else Validator (JSVal.str "foo"))
    ∧ (Validator (JSVal.str "foo")).assertWhen (.fn (fun _ => .ok (.bool false))) isStringP "m"
      = .ok (if false then (Validator (JSVal.str "foo")).assert isStringP "m"
          else Validator (JSVal.str "foo")) :=
  ⟨(c7_assertWhen_dispatch (Validator (JSVal.str "foo")) isStringP "m").1,
    (c7_assertWhen_dispatch (Validator (JSVal.str "foo")) isStringP "m").2.1,
    (c7_assertWhen_dispatch (Validator (JSVal.str "foo")) isStringP "m").2.2
      (fun _ => .ok (.bool true)) true rfl,
    (c7_assertWhen_dispatch (Validator (JSVal.str "foo")) isStringP "m").2.2
      (fun _ => .ok (.bool false)) false rfl⟩

/-! Three further shared lemmas: the value-level behaviour of `assert` when
the optional short-circuit does not fire. -/

lemma assert_ok_truthy (st : ValidatorState) (p : JSPred) (m : String) (r : JSVal)
    (hp : p st.value = .ok r) (hr : r.truthy = true)
    (hc : (st.optional && st.value.isNil) = false) : st.assert p m = st := by
  unfold ValidatorState.assert
  rw [hc, hp]
  simp [hr]

lemma assert_ok_falsy (st : ValidatorState) (p : JSPred) (m : String) (r : JSVal)
    (hp : p st.value = .ok r) (hr : r.truthy = false)
    (hc : (st.optional && st.value.isNil) = false) :
    st.assert p m = { value := st.value, errs := st.errs ++ [.plain m], optional := false } := by
  unfold ValidatorState.assert
  rw [hc, hp]
  simp [hr]

lemma assert_throw (st : ValidatorState) (p : JSPred) (m : String) (e : JSVal)
    (hp : p st.value = .error e)
    (hc : (st.optional && st.value.isNil) = false) :
    st.assert p m
      = { value := st.value
          errs := st.errs ++
            [.wrapped { name := "ValidationError", message := m, originalError := JSVal.undef }]
          optional := false } := by
  unfold ValidatorState.assert
  rw [hc, hp]
  rfl

/-- C8: `hasFailures()` is true iff the failures list is non-empty;
`hasErrors()` is true iff it contains at least one `ValidationError` entry;
`getFailures()` maps the failures list, in order, to the display message of
each entry (the entry itself for a plain failure, the `ValidationError`'s
`message` field otherwise); and on the spec's ordering example
`Validator(1).assert(isString,'s').assert(x=>false,'n')` it returns
`['s','n']`, matching the order the assertions were applied. -/
theorem c8_query_semantics (st : ValidatorState) :
    (st.hasFailures = true ↔ st.errs ≠ [])
    ∧ (st.hasErrors = true ↔ ∃ f ∈ st.errs, f.isJsError = true)
    ∧ st.getFailures = st.errs.map failureDisplayMessage
    ∧ (((Validator (JSVal.num 1)).assert isStringP "s").assert
        (fun _ => .ok (.bool false)) "n").getFailures = ["s", "n"] := by
  refine ⟨?_, ?_, ?_, rfl⟩
  · simp only [ValidatorState.hasFailures, gt_iff_lt, decide_eq_true_eq]
    exact List.length_pos
  · simp only [ValidatorState.hasErrors, gt_iff_lt, decide_eq_true_eq, List.length_pos]
    constructor
    · intro hne
      match hmem : st.errs.filter Failure.isJsError with
      | [] => exact absurd hmem hne
      | f :: rest =>
        have hf : f ∈ st.errs.filter Failure.isJsError := by
          rw [hmem]; exact List.mem_cons_self f rest
        rcases List.mem_filter.mp hf with ⟨h1, h2⟩
        exact ⟨f, h1, h2⟩
    · rintro ⟨f, hf, hjs⟩ hnil
      have hmem : f ∈ st.errs.filter Failure.isJsError := List.mem_filter.mpr ⟨hf, hjs⟩
      rw [hnil] at hmem
      cases hmem
  · unfold ValidatorState.getFailures
    have hfun : (fun failure : Failure => if failure.isJsError then failure.message
        else match failure with | .plain s => s | .wrapped e => e.message)
        = failureDisplayMessage := by
      funext f
      cases f <;> rfl
    exact congrArg (fun g => List.map g st.errs) hfun

/-- C9: bound validators compose in layering order without affecting their
base.  For any caller-supplied predicates and messages, with
`Str = Validator.withAssert(pS, mS)` and `Email = Str.withAssert(pE, mE)`:
when both predicates reject a value `x`, `Email(x).getFailures()` is
`[mS, mE]` in layering order; when both accept, it is `[]`; and `Str`
itself still behaves exactly as the one-assertion chain
`Validator(x).assert(pS, mS)` — in the embedding `Email` is a separate
`BoundValidator.layer` value holding `Str` as its base, so defining it
cannot alter `Str`. -/
theorem c9_bound_composition (pS pE : JSPred) (mS mE : String) (x rS rE : JSVal)
    (hS : pS x = .ok rS) (hE : pE x = .ok rE) :
    (rS.truthy = false → rE.truthy = false →
      (((Validator.withAssert pS mS).withAssert pE mE).invoke x).map ValidatorState.getFailures
        = .ok [mS, mE])
    ∧ (rS.truthy = true → rE.truthy = true →
      (((Validator.withAssert pS mS).withAssert pE mE).invoke x).map ValidatorState.getFailures
        = .ok [])
    ∧ (Validator.withAssert pS mS).invoke x = .ok ((Validator x).assert pS mS) := by
  have hinv : ((Validator.withAssert pS mS).withAssert pE mE).invoke x
      = .ok (((Validator x).assert pS mS).assert pE mE) := rfl
  refine ⟨?_, ?_, rfl⟩
  · intro h1 h2
    have hA : (Validator x).assert pS mS
        = { value := x, errs := [.plain mS], optional := false } :=
      assert_ok_falsy (Validator x) pS mS rS hS h1 rfl
    have hB : ({ value := x, errs := [.plain mS], optional := false } : ValidatorState).assert
        pE mE = { value := x, errs := [.plain mS, .plain mE], optional := false } :=
      assert_ok_falsy { value := x, errs := [.plain mS], optional := false } pE mE rE hE h2
        (by cases x <;> rfl)
    rw [hinv, hA, hB]
    rfl
  · intro h1 h2
    have hA : (Validator x).assert pS mS = Validator x :=
      assert_ok_truthy (Validator x) pS mS rS hS h1 rfl
    have hB : (Validator x).assert pE mE = Validator x :=
      assert_ok_truthy (Validator x) pE mE rE hE h2 rfl
    rw [hinv, hA, hB]
    rfl

/-- C9 witness: with `isString` and the total email-format predicate,
`Email(1).getFailures()` is `['must be a string', 'must be an email']`,
`Email('a@b.com').getFailures()` is `[]`, and `Str(1)` still equals
`Validator(1).assert(isString, 'must be a string')`. -/
theorem c9_bound_composition_witness :
    ((((Validator.withAssert isStringP "must be a string").withAssert isEmailFormatTotalP
        "must be an email").invoke (JSVal.num 1)).map ValidatorState.getFailures
      = .ok ["must be a string", "must be an email"])
    ∧ ((((Validator.withAssert isStringP "must be a string").withAssert isEmailFormatTotalP
        "must be an email").invoke (JSVal.str "a@b.com")).map ValidatorState.getFailures
      = .ok [])
    ∧ (Validator.withAssert isStringP "must be a string").invoke (JSVal.num 1)
      = .ok ((Validator (JSVal.num 1)).assert isStringP "must be a string") :=
  ⟨(c9_bound_composition isStringP isEmailFormatTotalP "must be a string" "must be an email"
      (JSVal.num 1) (JSVal.bool false) (JSVal.bool false) rfl rfl).1 rfl rfl,
    (c9_bound_composition isStringP isEmailFormatTotalP "must be a string" "must be an email"
      (JSVal.str "a@b.com") (JSVal.bool true) (JSVal.bool true) rfl rfl).2.1 rfl rfl,
    (c9_bound_composition isStringP isEmailFormatTotalP "must be a string" "must be an email"
      (JSVal.num 1) (JSVal.bool false) (JSVal.bool false) rfl rfl).2.2⟩

/-- C10: a condition function that throws makes `assertWhen` propagate the
thrown value synchronously to its caller (the `condThrown` error channel):
no validator is returned, so nothing is appended to any failures list and
no `WrappedError` is recorded — in contrast with the second conjunct, where
the same throwing function used as an `assert` predicate is captured and
recorded as a typed error entry. -/
theorem c10_condition_exception_propagates (st : ValidatorState) (f p : JSPred) (m : String)
    (e : JSVal) (h : f st.value = .error e) :
    st.assertWhen (.fn f) p m = .error (.condThrown e)
    ∧ ((Validator st.value).assert f m).getFailuresAndErrors.map Failure.isJsError
        = [true] := by
  constructor
  · simp only [ValidatorState.assertWhen]
    rw [h]
  · rw [assert_throw (Validator st.value) f m e h rfl]
    rfl

/-- C10 witness: on `Validator(1)`, a condition function throwing the value
`"boom"` makes `assertWhen` return that exception, while the same function
used as an `assert` predicate is recorded as a typed error entry. -/
theorem c10_condition_exception_propagates_witness :
    (Validator (JSVal.num 1)).assertWhen (.fn (fun _ => .error (JSVal.str "boom"))) isStringP "m"
      = .error (.condThrown (JSVal.str "boom"))
    ∧ ((Validator (JSVal.num 1)).assert (fun _ => .error (JSVal.str "boom"))
        "m").getFailuresAndErrors.map Failure.isJsError = [true] :=
  c10_condition_exception_propagates (Validator (JSVal.num 1))
    (fun _ => .error (JSVal.str "boom")) isStringP "m" (JSVal.str "boom") rfl

/-- C8 witness: the query semantics instantiated at the concrete chain
`Validator(1).assert(isString, "s").assert(isEmailFormat, "n")`, whose
failures list holds one plain failure and one `ValidationError` entry. -/
theorem c8_query_semantics_witness :
    ((((Validator (JSVal.num 1)).assert isStringP "s").assert isEmailFormatP "n").hasFailures
        = true
      ↔ (((Validator (JSVal.num 1)).assert isStringP "s").assert isEmailFormatP "n").errs ≠ [])
    ∧ ((((Validator (JSVal.num 1)).assert isStringP "s").assert isEmailFormatP "n").hasErrors
        = true
      ↔ ∃ f ∈ (((Validator (JSVal.num 1)).assert isStringP "s").assert isEmailFormatP "n").errs,
          f.isJsError = true)
    ∧ (((Validator (JSVal.num 1)).assert isStringP "s").assert isEmailFormatP "n").getFailures
      = (((Validator (JSVal.num 1)).assert isStringP "s").assert isEmailFormatP "n").errs.map
          failureDisplayMessage
    ∧ (((Validator (JSVal.num 1)).assert isStringP "s").assert
        (fun _ => .ok (.bool false)) "n").getFailures = ["s", "n"] :=
  c8_query_semantics (((Validator (JSVal.num 1)).assert isStringP "s").assert isEmailFormatP "n")
